import Mathlib

/-!
# Shallow embedding of the DDD_Learning aggregate/value-object core

This file embeds, in Lean 4, the Python classes that the specification's
testable properties talk about:

* `end_to_end_example/domain/course.py` — the `Course` aggregate
  (namespace `EndToEndCourse`);
* `ddd_course/aggregates_06/aggregates_example_02.py` — the `Order`
  aggregate and its `OrderItem` children (namespace `AggregatesExample`);
* `ddd_course/aggregates_06/advanced_aggregates_example_03.py` — the
  `Shipment` aggregate (namespace `AdvancedAggregates`);
* `ddd_course/value_objects_05/value_objects_example_02.py` — the `Money`
  value object (namespace `ValueObjects`).

Modelling conventions:

* Python `uuid.UUID` values are modelled as `Nat` tokens; factories take the
  fresh identifier as an explicit argument (the Python code draws it from
  `uuid4()`).
* Python `float` fields are modelled as exact rationals (`ℚ`).  Every
  comparison appearing in a claim involves only small decimal literals on
  which IEEE-754 double arithmetic and exact rational arithmetic agree.
* A Python method that may raise and that mutates `self` in place is
  modelled as a function `σ → σ × Option PyErr`: the returned state is the
  state of the object at the moment the method returned or raised, so a
  method that mutates before raising is represented faithfully.
* Python `set` fields are modelled as duplicate-free lists (the code only
  inserts after a membership check, so insertion order is a valid
  representation; the claims observe only membership and size).
-/

/-- The Python exception classes raised by the modelled modules.
`valueError` models `ValueError` (the business-rule kind), `runtimeError`
models `RuntimeError` (the configuration kind), and `typeError` models
`TypeError` (as raised by `hash(...)` on an unhashable value). -/
inductive PyErr where
  | valueError (msg : String)
  | runtimeError (msg : String)
  | typeError (msg : String)
deriving DecidableEq

namespace EndEx

/-! ## `end_to_end_example/domain` — value objects, events, `Course` -/

/-- `value_objects.CourseId` (frozen dataclass wrapping a UUID). -/
structure CourseId where
  value : Nat
deriving DecidableEq

/-- `value_objects.StudentId` (frozen dataclass wrapping a UUID). -/
structure StudentId where
  value : Nat
deriving DecidableEq

/-- `value_objects.CourseName` (frozen dataclass; its length validation is
performed at construction by `CourseName.mk?`). -/
structure CourseName where
  value : String
deriving DecidableEq

/-- `CourseName.__post_init__`: the name must be 3..100 characters long. -/
def CourseName.mk? (s : String) : Except PyErr CourseName :=
  if 3 ≤ s.length ∧ s.length ≤ 100 then .ok ⟨s⟩
  else .error (.valueError "Название курса должно содержать от 3 до 100 символов.")

/-- `events.py`: `CourseCreated`, `StudentEnrolled`, `EnrollmentClosed`,
all carrying `aggregate_id`. -/
inductive DomainEvent where
  | courseCreated (aggregate_id : Nat) (name : String) (capacity : Int)
  | studentEnrolled (aggregate_id : Nat) (student_id : Nat)
  | enrollmentClosed (aggregate_id : Nat)
deriving DecidableEq

/-- `course.Course` — the aggregate's dataclass fields.  `students` models
the private `_students : Set[StudentId]`, `events` the private
`_events : List[DomainEvent]`. -/
structure Course where
  id : CourseId
  name : CourseName
  capacity : Int
  students : List StudentId
  events : List DomainEvent
  version : Int
deriving DecidableEq

/-- `Course._add_event`: appends the event and calls
`_increment_version` (so `Course`'s version grows once per event). -/
def Course.addEvent (c : Course) (e : DomainEvent) : Course :=
  { c with events := c.events ++ [e], version := c.version + 1 }

/-- `Course.create` factory.  `freshId` stands for the `CourseId()` drawn
inside the factory.  Follows the source literally: the dataclass
constructor leaves `version = 0`, `_add_event` bumps it to 1, and the
factory then assigns `course.version = 1` again. -/
def Course.create (freshId : CourseId) (name : CourseName) (capacity : Int) :
    Except PyErr Course :=
  if capacity ≤ 0 then
    .error (.valueError "Вместимость курса должна быть положительной.")
  else
    let course : Course :=
      { id := freshId, name := name, capacity := capacity,
        students := [], events := [], version := 0 }
    let course := course.addEvent
      (.courseCreated course.id.value course.name.value course.capacity)
    .ok { course with version := 1 }

/-- `Course.students` property: returns `set(self._students)` — a fresh set
with the same (immutable) `StudentId` elements. -/
def Course.studentsCopy (c : Course) : List StudentId :=
  c.students

/-- `Course.pull_domain_events`: copies the buffer, clears it, returns the
copy. -/
def Course.pullDomainEvents (c : Course) : List DomainEvent × Course :=
  (c.events, { c with events := [] })

/-- `Course.enroll_student`.  Check order follows the source: capacity
first, then the idempotency membership test, then the mutation; enrolling
into the last free seat emits `EnrollmentClosed` as a second event (each
event appended through `_add_event` increments `version` once). -/
def Course.enrollStudent (c : Course) (sid : StudentId) : Course × Option PyErr :=
  if c.capacity ≤ (c.students.length : Int) then
    (c, some (.valueError "Курс уже заполнен."))
  else if sid ∈ c.students then
    -- Идемпотентность: повторная запись не вызывает ошибку
    (c, none)
  else
    let c1 := { c with students := c.students ++ [sid] }
    let c1 := c1.addEvent (.studentEnrolled c.id.value sid.value)
    if (c1.students.length : Int) = c1.capacity then
      (c1.addEvent (.enrollmentClosed c1.id.value), none)
    else
      (c1, none)

/-- `Course.__hash__` is `hash(self.id)`: a function of the identity field
only (modelled by the wrapped token). -/
def Course.hashValue (c : Course) : Nat :=
  c.id.value

end EndEx

namespace AggEx

/-! ## `ddd_course/aggregates_06/aggregates_example_02.py` — `Order` -/

/-- `ProductId` (frozen dataclass wrapping a UUID). -/
structure ProductId where
  value : Nat
deriving DecidableEq

/-- `Product` — a catalog entry outside the `Order` aggregate. -/
structure Product where
  id : ProductId
  name : String
  price : ℚ
deriving DecidableEq

/-- `OrderItemId` (dataclass wrapping a UUID; equality by wrapped value). -/
structure OrderItemId where
  value : Nat
deriving DecidableEq

/-- `OrderItem` — the child entity held inside the `Order` aggregate.
Its `__post_init__` validation is performed by `OrderItem.mk?`. -/
structure OrderItem where
  product_id : ProductId
  product_name : String
  quantity : Int
  price_per_unit : ℚ
  id : OrderItemId
deriving DecidableEq

/-- `OrderItem.__init__` + `__post_init__`: quantity must be positive and
the unit price non-negative, otherwise `ValueError` is raised before the
object exists. -/
def OrderItem.mk? (pid : ProductId) (pname : String) (q : Int) (ppu : ℚ)
    (iid : OrderItemId) : Except PyErr OrderItem :=
  if q ≤ 0 then .error (.valueError "Количество должно быть положительным.")
  else if ppu < 0 then
    .error (.valueError "Цена за единицу не может быть отрицательной.")
  else .ok ⟨pid, pname, q, ppu, iid⟩

/-- `OrderItem.change_quantity`: validates, then mutates `quantity`. -/
def OrderItem.changeQuantity (it : OrderItem) (nq : Int) :
    Except PyErr OrderItem :=
  if nq ≤ 0 then
    .error (.valueError "Новое количество должно быть положительным.")
  else .ok { it with quantity := nq }

/-- `OrderItem.total_price`. -/
def OrderItem.totalPrice (it : OrderItem) : ℚ :=
  (it.quantity : ℚ) * it.price_per_unit

/-- `OrderId` — unlike `ProductId`, a *plain* (non-frozen) `@dataclass`
wrapping a UUID.  Its generated `__eq__` is the field-wise comparison,
but because the dataclass has `eq=True` without `frozen=True`, Python
sets `OrderId.__hash__ = None`: an `OrderId` is unhashable. -/
structure OrderId where
  value : Nat
deriving DecidableEq

/-- `hash(order_id)` on an `OrderId`: since `OrderId.__hash__ is None`,
the call raises `TypeError` instead of returning a hash. -/
def OrderId.hashAttempt (_ : OrderId) : Except PyErr Nat :=
  .error (.typeError "unhashable type: OrderId")

/-- `OrderStatus` string constants. -/
inductive OrderStatus where
  | PENDING
  | PAID
  | SHIPPED
  | CANCELLED
deriving DecidableEq

/-- `Order` — aggregate root.  `items` models the private `_items` list. -/
structure Order where
  customer_id : Nat
  id : OrderId
  status : OrderStatus
  version : Int
  items : List OrderItem
deriving DecidableEq

/-- `Order.MAX_ITEMS_PER_ORDER`. -/
def MAX_ITEMS_PER_ORDER : Nat := 10

/-- `Order.MAX_QUANTITY_PER_ITEM`. -/
def MAX_QUANTITY_PER_ITEM : Int := 100

/-- The dataclass constructor `Order(customer_id=...)` with its field
defaults: status `PENDING`, version 1, empty items. -/
def Order.new (cid : Nat) (oid : OrderId) : Order :=
  { customer_id := cid, id := oid, status := .PENDING, version := 1,
    items := [] }

/-- `Order.items` property: `list(self._items)` — a fresh list with the
same elements (the value view; the reference-level shallowness of this
copy is modelled separately by `ItemsAliasing`). -/
def Order.itemsCopy (o : Order) : List OrderItem :=
  o.items

/-- The `for item in self._items` loop of `Order.add_item`: walk the list,
and at the first item whose `product_id` matches, run the
update-or-reject branch; `none` means the loop fell through. -/
def updateFirstMatch (pid : ProductId) (pname : String) (q : Int) :
    List OrderItem → Option (Except PyErr (List OrderItem))
  | [] => none
  | it :: rest =>
    if it.product_id = pid then
      let nq := it.quantity + q
      if MAX_QUANTITY_PER_ITEM < nq then
        some (.error (.valueError
          ("Общее количество товара " ++ pname ++ " превысит лимит.")))
      else
        match it.changeQuantity nq with
        | .error e => some (.error e)
        | .ok it2 => some (.ok (it2 :: rest))
    else
      match updateFirstMatch pid pname q rest with
      | none => none
      | some (.error e) => some (.error e)
      | some (.ok rest2) => some (.ok (it :: rest2))

/-- `Order.add_item`.  `freshItemId` stands for the `OrderItemId()` drawn
by the `OrderItem` constructor on the append path. -/
def Order.addItem (o : Order) (p : Product) (q : Int)
    (freshItemId : OrderItemId) : Order × Option PyErr :=
  if o.status ≠ .PENDING then
    (o, some (.valueError "Нельзя добавлять товары в заказ с этим статусом."))
  else if MAX_ITEMS_PER_ORDER ≤ o.items.length then
    (o, some (.valueError "Нельзя добавить больше позиций в заказ."))
  else if q ≤ 0 ∨ MAX_QUANTITY_PER_ITEM < q then
    (o, some (.valueError "Количество товара должно быть от 1 до 100."))
  else
    match updateFirstMatch p.id p.name q o.items with
    | some (.error e) => (o, some e)
    | some (.ok items2) =>
      ({ o with items := items2, version := o.version + 1 }, none)
    | none =>
      match OrderItem.mk? p.id p.name q p.price freshItemId with
      | .error e => (o, some e)
      | .ok it =>
        ({ o with items := o.items ++ [it], version := o.version + 1 }, none)

/-- `Order._find_item`: first item with the given `product_id`. -/
def Order.findItem (o : Order) (pid : ProductId) : Option OrderItem :=
  o.items.find? (fun it => decide (it.product_id = pid))

/-- Removal of the first item with the given `product_id`
(`self._items.remove(item_to_remove)`; `OrderItem.__eq__` compares the
per-item fresh `OrderItemId`, so the removed element is the found one). -/
def removeFirstByProduct (pid : ProductId) : List OrderItem → List OrderItem
  | [] => []
  | it :: rest =>
    if it.product_id = pid then rest else it :: removeFirstByProduct pid rest

/-- `Order.remove_item`. -/
def Order.removeItem (o : Order) (pid : ProductId) : Order × Option PyErr :=
  if o.status ≠ .PENDING then
    (o, some (.valueError "Нельзя удалять товары из заказа с этим статусом."))
  else
    match o.findItem pid with
    | some _ =>
      ({ o with items := removeFirstByProduct pid o.items,
                version := o.version + 1 }, none)
    | none => (o, some (.valueError "Продукт не найден в заказе."))

/-- In-place `change_quantity` on the first item with the given
`product_id` (the mutation step of `Order.update_item_quantity`; its
quantity validation is re-run, matching the source). -/
def setQuantityFirstMatch (pid : ProductId) (nq : Int) :
    List OrderItem → List OrderItem
  | [] => []
  | it :: rest =>
    if it.product_id = pid then { it with quantity := nq } :: rest
    else it :: setQuantityFirstMatch pid nq rest

/-- `Order.update_item_quantity`. -/
def Order.updateItemQuantity (o : Order) (pid : ProductId) (nq : Int) :
    Order × Option PyErr :=
  if o.status ≠ .PENDING then
    (o, some (.valueError "Нельзя изменять количество в заказе с этим статусом."))
  else if nq ≤ 0 ∨ MAX_QUANTITY_PER_ITEM < nq then
    (o, some (.valueError "Новое количество товара должно быть от 1 до 100."))
  else
    match o.findItem pid with
    | some _ =>
      ({ o with items := setQuantityFirstMatch pid nq o.items,
                version := o.version + 1 }, none)
    | none => (o, some (.valueError "Продукт не найден для обновления."))

/-- `Order.total_price`. -/
def Order.totalPrice (o : Order) : ℚ :=
  (o.items.map OrderItem.totalPrice).sum

/-- `Order.pay`. -/
def Order.pay (o : Order) : Order × Option PyErr :=
  if o.status ≠ .PENDING then
    (o, some (.valueError "Заказ не может быть оплачен в этом статусе."))
  else if o.items = [] then
    (o, some (.valueError "Нельзя оплатить пустой заказ."))
  else
    ({ o with status := .PAID, version := o.version + 1 }, none)

/-- `Order.ship`. -/
def Order.ship (o : Order) : Order × Option PyErr :=
  if o.status ≠ .PAID then
    (o, some (.valueError "Заказ не может быть отгружен в этом статусе."))
  else
    ({ o with status := .SHIPPED, version := o.version + 1 }, none)

/-- `Order.cancel`. -/
def Order.cancel (o : Order) : Order × Option PyErr :=
  if o.status ≠ .PENDING ∧ o.status ≠ .PAID then
    (o, some (.valueError "Заказ не может быть отменен в этом статусе."))
  else
    ({ o with status := .CANCELLED, version := o.version + 1 }, none)

/-- `Order.__hash__` executes `return hash(self.id)`.  `OrderId` is
unhashable (see `OrderId.hashAttempt`), so this call always raises
`TypeError` — an `Order` can never actually be hashed. -/
def Order.hashValue (o : Order) : Except PyErr Nat :=
  o.id.hashAttempt

end AggEx

namespace AdvEx

/-! ## `ddd_course/aggregates_06/advanced_aggregates_example_03.py` —
`Shipment` -/

/-- `ShipmentId` (frozen dataclass wrapping a UUID). -/
structure ShipmentId where
  value : Nat
deriving DecidableEq

/-- `OrderId` — reference to the Order aggregate by id. -/
structure OrderId where
  value : Nat
deriving DecidableEq

/-- `Address` (frozen dataclass of three strings). -/
structure Address where
  city : String
  street : String
  zip_code : String
deriving DecidableEq

/-- `Weight` in kilograms; `__post_init__` requires a positive value
(enforced at construction by `Weight.mk?`). -/
structure Weight where
  value : ℚ
deriving DecidableEq

/-- `Weight.__post_init__`. -/
def Weight.mk? (v : ℚ) : Except PyErr Weight :=
  if v ≤ 0 then .error (.valueError "Вес должен быть положительным.")
  else .ok ⟨v⟩

/-- `Volume` in cubic metres; `__post_init__` requires a positive value. -/
structure Volume where
  value : ℚ
deriving DecidableEq

/-- `Volume.__post_init__`. -/
def Volume.mk? (v : ℚ) : Except PyErr Volume :=
  if v ≤ 0 then .error (.valueError "Объем должен быть положительным.")
  else .ok ⟨v⟩

/-- `ShipmentStatus` enum. -/
inductive ShipmentStatus where
  | PREPARING
  | DISPATCHED
  | IN_TRANSIT
  | DELIVERED
  | CANCELLED
deriving DecidableEq

/-- The concrete `DomainEvent` subclasses of the shipment module. -/
inductive DomainEvent where
  | shipmentCreated (aggregate_id : Nat) (destination : Address)
      (max_weight : Weight) (max_volume : Volume)
  | parcelAddedToShipment (aggregate_id : Nat) (order_id : OrderId)
      (weight : Weight) (volume : Volume)
  | shipmentDispatched (aggregate_id : Nat) (dispatch_timestamp : Int)
  | shipmentDelivered (aggregate_id : Nat) (delivery_timestamp : Int)
deriving DecidableEq

/-- `Parcel` — local entity inside the aggregate. -/
structure Parcel where
  order_id : OrderId
  weight : Weight
  volume : Volume
deriving DecidableEq

/-- `Shipment` — aggregate root.  `Shipment.__init__` deliberately leaves
every field in a sentinel state; `parcels` and `events` model the private
`_parcels` / `_events` lists. -/
structure Shipment where
  id : Option ShipmentId
  destination : Option Address
  status : Option ShipmentStatus
  parcels : List Parcel
  events : List DomainEvent
  max_weight : Option Weight
  max_volume : Option Volume
  version : Int
deriving DecidableEq

/-- The bare constructor `Shipment()` — the "not yet usable" sentinel
state produced when the factory is bypassed. -/
def Shipment.bare : Shipment :=
  { id := none, destination := none, status := none, parcels := [],
    events := [], max_weight := none, max_volume := none, version := 0 }

/-- `Shipment._add_event` (no version change here, unlike `Course`). -/
def Shipment.addEvent (s : Shipment) (e : DomainEvent) : Shipment :=
  { s with events := s.events ++ [e] }

/-- `Shipment.create` factory.  `freshId` stands for `ShipmentId()`.  The
source's `isinstance(destination, Address)` guard is always satisfied in
this typed embedding. -/
def Shipment.create (freshId : ShipmentId) (dest : Address) (mw : Weight)
    (mv : Volume) : Shipment :=
  let s : Shipment :=
    { id := some freshId, destination := some dest,
      status := some .PREPARING, parcels := [], events := [],
      max_weight := some mw, max_volume := some mv, version := 1 }
  s.addEvent (.shipmentCreated freshId.value dest mw mv)

/-- `Shipment.parcels` property: `list(self._parcels)`. -/
def Shipment.parcelsCopy (s : Shipment) : List Parcel :=
  s.parcels

/-- `Shipment.current_weight`: sum of parcel weights, or the
`Weight(0.001)` placeholder when there is no parcel yet ("hack for
positive value" in the source). -/
def Shipment.currentWeight (s : Shipment) : Weight :=
  if s.parcels = [] then ⟨1/1000⟩
  else ⟨(s.parcels.map (fun p => p.weight.value)).sum⟩

/-- `Shipment.current_volume`: likewise with a `Volume(0.001)`
placeholder. -/
def Shipment.currentVolume (s : Shipment) : Volume :=
  if s.parcels = [] then ⟨1/1000⟩
  else ⟨(s.parcels.map (fun p => p.volume.value)).sum⟩

/-- `Shipment.pull_domain_events`. -/
def Shipment.pullDomainEvents (s : Shipment) : List DomainEvent × Shipment :=
  (s.events, { s with events := [] })

/-- `Shipment.add_parcel`.  Check order follows the source: status,
`max_weight` configuration, weight capacity, `max_volume` configuration,
volume capacity, one-parcel-per-order uniqueness; then the parcel is
appended and the version incremented, and only after that mutation the
`self.id is None` configuration check runs (so on that path the method
raises with the state already changed). -/
def Shipment.addParcel (s : Shipment) (oid : OrderId) (w : Weight)
    (v : Volume) : Shipment × Option PyErr :=
  if s.status ≠ some .PREPARING then
    (s, some (.valueError "Нельзя добавлять посылки в отправление."))
  else
    match s.max_weight with
    | none =>
      (s, some (.runtimeError "Ошибка конфигурации: max_weight не установлен."))
    | some mw =>
      if mw.value < s.currentWeight.value + w.value then
        (s, some (.valueError "Превышен максимальный вес отправления."))
      else
        match s.max_volume with
        | none =>
          (s, some (.runtimeError "Ошибка конфигурации: max_volume не установлен."))
        | some mv =>
          if mv.value < s.currentVolume.value + v.value then
            (s, some (.valueError "Превышен максимальный объем отправления."))
          else if s.parcels.any (fun p => decide (p.order_id = oid)) then
            (s, some (.valueError "Посылка для заказа уже в этом отправлении."))
          else
            let s1 := { s with parcels := s.parcels ++ [Parcel.mk oid w v],
                               version := s.version + 1 }
            match s1.id with
            | none =>
              (s1, some (.runtimeError
                "Shipment ID is not initialized when adding parcel event."))
            | some i =>
              (s1.addEvent (.parcelAddedToShipment i.value oid w v), none)

/-- `Shipment.dispatch`.  As in the source, the `self.id is None` check
runs only after the status change and version increment. -/
def Shipment.dispatch (s : Shipment) (timestamp : Int) :
    Shipment × Option PyErr :=
  if s.status ≠ some .PREPARING then
    (s, some (.valueError "Отправить можно только подготовленный груз."))
  else if s.parcels = [] then
    (s, some (.valueError "Нельзя отправить пустой груз."))
  else
    let s1 := { s with status := some .DISPATCHED, version := s.version + 1 }
    match s1.id with
    | none =>
      (s1, some (.runtimeError "Shipment ID is not initialized when dispatching."))
    | some i =>
      (s1.addEvent (.shipmentDispatched i.value timestamp), none)

/-- `Shipment.mark_as_delivered`; same post-mutation `id` check pattern. -/
def Shipment.markAsDelivered (s : Shipment) (timestamp : Int) :
    Shipment × Option PyErr :=
  if s.status ≠ some .DISPATCHED ∧ s.status ≠ some .IN_TRANSIT then
    (s, some (.valueError "Нельзя отметить доставленным груз в этом статусе."))
  else
    let s1 := { s with status := some .DELIVERED, version := s.version + 1 }
    match s1.id with
    | none =>
      (s1, some (.runtimeError
        "Shipment ID is not initialized when marking as delivered."))
    | some i =>
      (s1.addEvent (.shipmentDelivered i.value timestamp), none)

/-- `Shipment.__hash__` is `hash((self.__class__, self.id))`: a function
of the identity field only (one `Nat` per possible `id`). -/
def Shipment.hashValue (s : Shipment) : Nat :=
  match s.id with
  | none => 0
  | some i => i.value + 1

/-- States in which the aggregate can actually be found: either it went
through the `create` factory (then `id` is set) or it is the bare
`Shipment()` sentinel (then `status` is `None` and every mutator fails on
its status check before mutating anything). -/
def Shipment.WF (s : Shipment) : Prop :=
  s.id = none → s.status = none

instance (s : Shipment) : Decidable s.WF := by
  unfold Shipment.WF
  infer_instance

end AdvEx

namespace ValObj

/-! ## `ddd_course/value_objects_05/value_objects_example_02.py` — `Money` -/

/-- `Money` (frozen dataclass): an amount plus a currency code.  Its
`__post_init__` validation is performed at construction by `Money.mk?`;
dataclass equality is field-wise, i.e. structure equality here. -/
structure Money where
  amount : ℚ
  currency : String
deriving DecidableEq

/-- The currency check of `Money.__post_init__`: non-empty, exactly three
characters, all alphabetic, all upper-case (ASCII reading of Python's
`isalpha`/`isupper`, which agrees on every code in the repository). -/
def validCurrency (c : String) : Bool :=
  c ≠ "" && c.length = 3 && c.data.all (fun ch => ch.isAlpha) &&
    c.data.all (fun ch => ch.isUpper)

/-- `Money.__init__` + `__post_init__`. -/
def Money.mk? (amount : ℚ) (currency : String) : Except PyErr Money :=
  if amount < 0 then
    .error (.valueError "Сумма не может быть отрицательной.")
  else if ¬ validCurrency currency then
    .error (.valueError "Код валюты должен состоять из 3 заглавных букв.")
  else .ok ⟨amount, currency⟩

/-- `Money.__add__` on two `Money` operands (the `isinstance` guard has
already passed): currency mismatch raises, never coerces. -/
def Money.add (m other : Money) : Except PyErr Money :=
  if m.currency ≠ other.currency then
    .error (.valueError "Нельзя складывать деньги в разных валютах.")
  else .ok ⟨m.amount + other.amount, m.currency⟩

/-- `Money.__sub__` on two `Money` operands. -/
def Money.sub (m other : Money) : Except PyErr Money :=
  if m.currency ≠ other.currency then
    .error (.valueError "Нельзя вычитать деньги в разных валютах.")
  else .ok ⟨m.amount - other.amount, m.currency⟩

/-- The hash of a frozen dataclass is a function of its field tuple; two
instances with equal fields therefore hash identically.  Modelled by the
field tuple itself. -/
def Money.hashValue (m : Money) : ℚ × String :=
  (m.amount, m.currency)

end ValObj

namespace PyEq

/-! ## Python `==` dispatch across the modelled classes

CPython evaluates `x == y` by first calling `type(x).__eq__(x, y)`; if that
returns `NotImplemented` it tries the reflected `type(y).__eq__(y, x)`; if
both decline it falls back to identity, which is `False` for two distinct
objects.  `NotImplemented` is modelled as `none`. -/

/-- A small universe of runtime values that the equality claims compare:
the three aggregates, the `Money` value object, and `str` as the
representative unrelated type. -/
inductive PyVal where
  | course (c : EndEx.Course)
  | order (o : AggEx.Order)
  | shipment (s : AdvEx.Shipment)
  | money (m : ValObj.Money)
  | str (s : String)
deriving DecidableEq

/-- `Course.__eq__`: `NotImplemented` unless the other operand is a
`Course`, else comparison of the `id` fields. -/
def courseEqMethod (c : EndEx.Course) : PyVal → Option Bool
  | .course c2 => some (decide (c.id = c2.id))
  | _ => none

/-- `Order.__eq__`: `NotImplemented` unless the other operand is an
`Order`, else comparison of the `id` fields. -/
def orderEqMethod (o : AggEx.Order) : PyVal → Option Bool
  | .order o2 => some (decide (o.id = o2.id))
  | _ => none

/-- `Shipment.__eq__`: `NotImplemented` unless the other operand is a
`Shipment`; the `self is other` and `self.__class__ is other.__class__`
steps are redundant for two `Shipment` values, leaving comparison of the
`id` fields. -/
def shipmentEqMethod (s : AdvEx.Shipment) : PyVal → Option Bool
  | .shipment s2 => some (decide (s.id = s2.id))
  | _ => none

/-- `Money.__eq__` (generated by `@dataclass(frozen=True)`):
`NotImplemented` for another class, else field-wise comparison. -/
def moneyEqMethod (m : ValObj.Money) : PyVal → Option Bool
  | .money m2 => some (decide (m = m2))
  | _ => none

/-- `str.__eq__`. -/
def strEqMethod (a : String) : PyVal → Option Bool
  | .str b => some (decide (a = b))
  | _ => none

/-- The `__eq__` slot of the left operand's class. -/
def dunderEq : PyVal → PyVal → Option Bool
  | .course c, y => courseEqMethod c y
  | .order o, y => orderEqMethod o y
  | .shipment s, y => shipmentEqMethod s y
  | .money m, y => moneyEqMethod m y
  | .str a, y => strEqMethod a y

/-- CPython's `==` protocol: left `__eq__`, reflected `__eq__`, then the
identity fallback (`False` — cross-class pairs are never the same
object). -/
def pyEq (x y : PyVal) : Bool :=
  match dunderEq x y with
  | some b => b
  | none =>
    match dunderEq y x with
    | some b => b
    | none => false

end PyEq

namespace Alias

/-! ## Reference-level view of `Order.items`

`Order.items` returns `list(self._items)`: a *fresh list object* whose
elements are the *same* `OrderItem` objects the aggregate holds.  To state
what sharing does and does not leak, `OrderItem` objects and list objects
are placed on explicit heaps, with addresses as indices; the aggregate's
`_items` field and the value the accessor returns are both list
addresses. -/

/-- Heap of Python objects relevant to the accessor: `itemCells` holds the
mutable `OrderItem` instances, `listCells` the list objects (each a
sequence of item addresses). -/
structure Heap where
  itemCells : List AggEx.OrderItem
  listCells : List (List Nat)
deriving DecidableEq

/-- The `items` property: allocate a fresh list object with the same
element addresses (`list(self._items)`) and return its address. -/
def itemsProperty (h : Heap) (internalAddr : Nat) : Heap × Nat :=
  ({ h with listCells := h.listCells ++ [h.listCells.getD internalAddr []] },
   h.listCells.length)

/-- `lst.append(item)` on the list object at `dst`. -/
def listAppend (h : Heap) (dst : Nat) (iaddr : Nat) : Heap :=
  { h with listCells :=
      h.listCells.set dst ((h.listCells.getD dst []) ++ [iaddr]) }

/-- Reading a list object through the heap: the sequence of `OrderItem`
values its addresses point to. -/
def readList (h : Heap) (laddr : Nat) : List (Option AggEx.OrderItem) :=
  (h.listCells.getD laddr []).map (fun a => h.itemCells.get? a)

/-- `item.change_quantity(nq)` on the `OrderItem` object at `iaddr`
(`OrderItem.change_quantity` validates, then mutates the shared object). -/
def changeQuantityAt (h : Heap) (iaddr : Nat) (nq : Int) :
    Heap × Option PyErr :=
  if nq ≤ 0 then
    (h, some (.valueError "Новое количество должно быть положительным."))
  else
    match h.itemCells.get? iaddr with
    | none => (h, none)
    | some it =>
      ({ h with itemCells := h.itemCells.set iaddr { it with quantity := nq } },
       none)

end Alias

/-- Is the error the `RuntimeError` (configuration) kind? -/
def PyErr.isRuntime : PyErr → Bool
  | .runtimeError _ => true
  | .valueError _ => false
  | .typeError _ => false

/-- Is the error the `ValueError` (business-rule) kind? -/
def PyErr.isValue : PyErr → Bool
  | .valueError _ => true
  | .runtimeError _ => false
  | .typeError _ => false

namespace Demo

/-! ## Concrete inputs used by counterexamples and witnesses, taken from
the spec's concrete scenarios (§8) and the repository's own tests. -/

open EndEx AggEx AdvEx ValObj

/-- The course of spec scenario 3: `capacity = 1`, as produced by
`Course.create` (see `create_course1` below). -/
def course1 : Course :=
  { id := ⟨0⟩, name := ⟨"Последнее место"⟩, capacity := 1, students := [],
    events := [.courseCreated 0 "Последнее место" 1], version := 1 }

/-- Student A of spec scenario 3. -/
def studentA : StudentId := ⟨7⟩

/-- `course1` after enrolling student A — the course is now full. -/
def courseFull : Course := (course1.enrollStudent studentA).1

/-- The address of the shipment demo in the source module. -/
def addr1 : AdvEx.Address := ⟨"Москва", "Ленина", "101000"⟩

/-- The shipment of spec scenario 1: `max_weight = 100`,
`max_volume = 1.5`. -/
def ship1 : Shipment := Shipment.create ⟨0⟩ addr1 ⟨100⟩ ⟨3/2⟩

/-- `ship1` after adding the parcel of weight 25, volume 0.5, written out
field by field (the link to `add_parcel` is the supporting lemma
`ship1_addParcel_small` below). -/
def ship2 : Shipment :=
  { id := some ⟨0⟩, destination := some addr1,
    status := some .PREPARING,
    parcels := [⟨⟨1⟩, ⟨25⟩, ⟨1/2⟩⟩],
    events := [.shipmentCreated 0 addr1 ⟨100⟩ ⟨3/2⟩,
               .parcelAddedToShipment 0 ⟨1⟩ ⟨25⟩ ⟨1/2⟩],
    max_weight := some ⟨100⟩, max_volume := some ⟨3/2⟩, version := 2 }

/-- A capacity-2 course with student A already enrolled (as in the
repository's idempotency test). -/
def course2 : Course :=
  { id := ⟨1⟩, name := ⟨"Повторный курс"⟩, capacity := 2,
    students := [studentA],
    events := [.courseCreated 1 "Повторный курс" 2,
               .studentEnrolled 1 7],
    version := 2 }

/-- An order item for product 0 with quantity 1. -/
def item0 : OrderItem := ⟨⟨0⟩, "Тестовый Продукт 1", 1, 10, ⟨0⟩⟩

/-- Ten order items for ten distinct products (products 0..9), each of
quantity 1 — an order holding them is at `MAX_ITEMS_PER_ORDER`. -/
def tenItems : List OrderItem :=
  (List.range 10).map (fun i => ⟨⟨i⟩, "Тестовый Продукт 1", 1, 10, ⟨i⟩⟩)

/-- A PENDING order at the `MAX_ITEMS_PER_ORDER` limit that already
contains an item for product 0 (reachable by ten `add_item` calls on a
fresh order). -/
def fullOrder : Order :=
  { customer_id := 0, id := ⟨0⟩, status := .PENDING, version := 11,
    items := tenItems }

/-- Product 0 of `fullOrder`. -/
def prod0 : Product := ⟨⟨0⟩, "Тестовый Продукт 1", 10⟩

/-- A small PENDING order holding only `item0` (one `add_item` call after
construction). -/
def order1 : Order :=
  { customer_id := 0, id := ⟨0⟩, status := .PENDING, version := 2,
    items := [item0] }

/-- The aliasing heap before the accessor call: one `OrderItem` object of
quantity 2 on the heap, and the aggregate's internal `_items` list at
list-address 0 holding a reference to it. -/
def heap0 : Alias.Heap := ⟨[⟨⟨0⟩, "Тестовый Продукт 1", 2, 100, ⟨0⟩⟩], [[0]]⟩

/-- The heap after `copy = order.items` — a fresh list object at
address 1 sharing the item reference. -/
def heap1 : Alias.Heap := (Alias.itemsProperty heap0 0).1

/-- The list address the accessor returned. -/
def retAddr : Nat := (Alias.itemsProperty heap0 0).2

/-- The heap after `copy[0].change_quantity(7)`. -/
def heap2 : Alias.Heap := (Alias.changeQuantityAt heap1 0 7).1

end Demo

/-!
## Supporting lemmas

Per-mutator facts about version increments and about error paths, shared
by the claim theorems below.
-/

namespace EndEx

theorem enrollStudent_err_unchanged (c : Course) (sid : StudentId) :
    (c.enrollStudent sid).2.isSome → (c.enrollStudent sid).1 = c := by
  unfold Course.enrollStudent
  repeat' split
  all_goals try simp_all [Course.addEvent]
  all_goals repeat' split
  all_goals simp_all

theorem enrollStudent_version (c : Course) (sid : StudentId) :
    (c.enrollStudent sid).2 = none →
      (sid ∈ c.students → (c.enrollStudent sid).1.version = c.version) ∧
      (sid ∉ c.students →
        (((c.students.length : Int) + 1 = c.capacity →
            (c.enrollStudent sid).1.version = c.version + 2) ∧
         ((c.students.length : Int) + 1 ≠ c.capacity →
            (c.enrollStudent sid).1.version = c.version + 1))) := by
  unfold Course.enrollStudent
  repeat' split
  all_goals try simp_all [Course.addEvent]
  all_goals repeat' split
  all_goals try simp_all
  all_goals omega

theorem courseId_value_inj (a b : CourseId) : a.value = b.value ↔ a = b := by
  cases a
  cases b
  simp

theorem create_version (fid : CourseId) (name : CourseName) (cap : Int)
    (c : Course) : Course.create fid name cap = .ok c → c.version = 1 := by
  unfold Course.create
  split
  · simp
  · intro h
    simp only [Except.ok.injEq] at h
    subst h
    rfl

end EndEx

namespace AggEx

theorem addItem_err_unchanged (o : Order) (p : Product) (q : Int)
    (iid : OrderItemId) :
    (o.addItem p q iid).2.isSome → (o.addItem p q iid).1 = o := by
  unfold Order.addItem
  repeat' split
  all_goals simp_all

theorem addItem_ok_version (o : Order) (p : Product) (q : Int)
    (iid : OrderItemId) :
    (o.addItem p q iid).2 = none → (o.addItem p q iid).1.version = o.version + 1 := by
  unfold Order.addItem
  repeat' split
  all_goals simp_all

theorem removeItem_err_unchanged (o : Order) (pid : ProductId) :
    (o.removeItem pid).2.isSome → (o.removeItem pid).1 = o := by
  unfold Order.removeItem
  repeat' split
  all_goals simp_all

theorem removeItem_ok_version (o : Order) (pid : ProductId) :
    (o.removeItem pid).2 = none → (o.removeItem pid).1.version = o.version + 1 := by
  unfold Order.removeItem
  repeat' split
  all_goals simp_all

theorem updateItemQuantity_err_unchanged (o : Order) (pid : ProductId)
    (nq : Int) :
    (o.updateItemQuantity pid nq).2.isSome → (o.updateItemQuantity pid nq).1 = o := by
  unfold Order.updateItemQuantity
  repeat' split
  all_goals simp_all

theorem updateItemQuantity_ok_version (o : Order) (pid : ProductId) (nq : Int) :
    (o.updateItemQuantity pid nq).2 = none →
      (o.updateItemQuantity pid nq).1.version = o.version + 1 := by
  unfold Order.updateItemQuantity
  repeat' split
  all_goals simp_all

theorem pay_err_unchanged (o : Order) :
    (o.pay).2.isSome → (o.pay).1 = o := by
  unfold Order.pay
  repeat' split
  all_goals simp_all

theorem pay_ok_version (o : Order) :
    (o.pay).2 = none → (o.pay).1.version = o.version + 1 := by
  unfold Order.pay
  repeat' split
  all_goals simp_all

theorem ship_err_unchanged (o : Order) :
    (o.ship).2.isSome → (o.ship).1 = o := by
  unfold Order.ship
  repeat' split
  all_goals simp_all

theorem ship_ok_version (o : Order) :
    (o.ship).2 = none → (o.ship).1.version = o.version + 1 := by
  unfold Order.ship
  repeat' split
  all_goals simp_all

theorem cancel_err_unchanged (o : Order) :
    (o.cancel).2.isSome → (o.cancel).1 = o := by
  unfold Order.cancel
  repeat' split
  all_goals simp_all

theorem cancel_ok_version (o : Order) :
    (o.cancel).2 = none → (o.cancel).1.version = o.version + 1 := by
  unfold Order.cancel
  repeat' split
  all_goals simp_all

theorem setQuantityFirstMatch_length (pid : ProductId) (nq : Int)
    (l : List OrderItem) :
    (setQuantityFirstMatch pid nq l).length = l.length := by
  induction l with
  | nil => rfl
  | cons it rest ih =>
    unfold setQuantityFirstMatch
    split
    · simp
    · simp [ih]

/-- Characterization of the `add_item` duplicate-product loop when the
first matching item is `it0` and the merged quantity is positive. -/
theorem updateFirstMatch_spec (pid : ProductId) (pname : String) (q : Int)
    (l : List OrderItem) (it0 : OrderItem)
    (hfind : l.find? (fun it => decide (it.product_id = pid)) = some it0)
    (hpos : 0 < it0.quantity + q) :
    updateFirstMatch pid pname q l =
      if MAX_QUANTITY_PER_ITEM < it0.quantity + q then
        some (.error (.valueError
          ("Общее количество товара " ++ pname ++ " превысит лимит.")))
      else some (.ok (setQuantityFirstMatch pid (it0.quantity + q) l)) := by
  induction l with
  | nil => simp at hfind
  | cons it rest ih =>
    by_cases h : it.product_id = pid
    · rw [List.find?_cons_of_pos _ (by simpa using h)] at hfind
      injection hfind with hfind
      subst hfind
      unfold updateFirstMatch setQuantityFirstMatch
      rw [if_pos h, if_pos h]
      by_cases hmax : MAX_QUANTITY_PER_ITEM < it.quantity + q
      · rw [if_pos hmax, if_pos hmax]
      · rw [if_neg hmax, if_neg hmax]
        unfold OrderItem.changeQuantity
        rw [if_neg (by omega)]
    · rw [List.find?_cons_of_neg _ (by simpa using h)] at hfind
      unfold updateFirstMatch setQuantityFirstMatch
      rw [if_neg h, if_neg h, ih hfind]
      by_cases hmax : MAX_QUANTITY_PER_ITEM < it0.quantity + q
      · rw [if_pos hmax, if_pos hmax]
      · rw [if_neg hmax, if_neg hmax]

end AggEx

namespace AdvEx

theorem addParcel_err_unchanged (s : Shipment) (oid : OrderId) (w : Weight)
    (v : Volume) (hwf : s.WF) :
    (s.addParcel oid w v).2.isSome → (s.addParcel oid w v).1 = s := by
  unfold Shipment.addParcel
  repeat' split
  all_goals try simp_all [Shipment.addEvent, Shipment.WF]
  all_goals repeat' split
  all_goals simp_all

theorem addParcel_ok_version (s : Shipment) (oid : OrderId) (w : Weight)
    (v : Volume) :
    (s.addParcel oid w v).2 = none → (s.addParcel oid w v).1.version = s.version + 1 := by
  unfold Shipment.addParcel
  repeat' split
  all_goals try simp_all [Shipment.addEvent]
  all_goals repeat' split
  all_goals simp_all

theorem dispatch_err_unchanged (s : Shipment) (t : Int) (hwf : s.WF) :
    (s.dispatch t).2.isSome → (s.dispatch t).1 = s := by
  unfold Shipment.dispatch
  repeat' split
  all_goals try simp_all [Shipment.addEvent, Shipment.WF]
  all_goals repeat' split
  all_goals simp_all

theorem dispatch_ok_version (s : Shipment) (t : Int) :
    (s.dispatch t).2 = none → (s.dispatch t).1.version = s.version + 1 := by
  unfold Shipment.dispatch
  repeat' split
  all_goals try simp_all [Shipment.addEvent]
  all_goals repeat' split
  all_goals simp_all

theorem markAsDelivered_err_unchanged (s : Shipment) (t : Int) (hwf : s.WF) :
    (s.markAsDelivered t).2.isSome → (s.markAsDelivered t).1 = s := by
  unfold Shipment.markAsDelivered
  repeat' split
  all_goals try simp_all [Shipment.addEvent, Shipment.WF]
  all_goals repeat' split
  all_goals simp_all

theorem markAsDelivered_ok_version (s : Shipment) (t : Int) :
    (s.markAsDelivered t).2 = none → (s.markAsDelivered t).1.version = s.version + 1 := by
  unfold Shipment.markAsDelivered
  repeat' split
  all_goals try simp_all [Shipment.addEvent]
  all_goals repeat' split
  all_goals simp_all

/-- `hash((self.__class__, self.id))` distinguishes exactly the `id`
values: the modelled `Shipment` hash is injective in the identity
field. -/
theorem shipment_hashValue_inj (s1 s2 : Shipment) :
    s1.hashValue = s2.hashValue ↔ s1.id = s2.id := by
  unfold Shipment.hashValue
  cases h1 : s1.id <;> cases h2 : s2.id <;> simp_all
  rename_i i j
  cases i
  cases j
  simp

/-- Adding the 25 kg / 0.5 m³ parcel of spec scenario 1 to `Demo.ship1`
succeeds and produces exactly `Demo.ship2`. -/
theorem ship1_addParcel_small :
    Demo.ship1.addParcel ⟨1⟩ ⟨25⟩ ⟨1/2⟩ = (Demo.ship2, none) := by
  norm_num [Demo.ship1, Demo.ship2, Shipment.create, Shipment.addParcel,
    Shipment.addEvent, Shipment.currentWeight, Shipment.currentVolume]

/-- `WF` holds for both entry points and is preserved by every mutator,
so the hypothesis used by the error-path lemmas holds in every reachable
state. -/
theorem wf_reachable :
    (∀ fid dest mw mv, (Shipment.create fid dest mw mv).WF) ∧
    Shipment.bare.WF ∧
    (∀ (s : Shipment) oid w v, s.WF → ((s.addParcel oid w v).1).WF) ∧
    (∀ (s : Shipment) t, s.WF → ((s.dispatch t).1).WF) ∧
    (∀ (s : Shipment) t, s.WF → ((s.markAsDelivered t).1).WF) := by
  refine ⟨?_, ?_, ?_, ?_, ?_⟩
  · intro fid dest mw mv
    simp [Shipment.create, Shipment.addEvent, Shipment.WF]
  · simp [Shipment.bare, Shipment.WF]
  · intro s oid w v hwf
    unfold Shipment.addParcel
    repeat' split
    all_goals try simp_all [Shipment.addEvent, Shipment.WF]
    all_goals repeat' split
    all_goals simp_all
  · intro s t hwf
    unfold Shipment.dispatch
    repeat' split
    all_goals try simp_all [Shipment.addEvent, Shipment.WF]
    all_goals repeat' split
    all_goals simp_all
  · intro s t hwf
    unfold Shipment.markAsDelivered
    repeat' split
    all_goals try simp_all [Shipment.addEvent, Shipment.WF]
    all_goals repeat' split
    all_goals simp_all

end AdvEx

namespace Alias

theorem itemsProperty_fresh_address (h : Heap) (internal : Nat)
    (hlt : internal < h.listCells.length) :
    (itemsProperty h internal).2 ≠ internal := by
  simp only [itemsProperty]
  omega

/-- Mutating (appending to) the list object returned by the accessor does
not change what a read of the internal list observes. -/
theorem listAppend_on_copy_safe (h : Heap) (internal iaddr : Nat)
    (hlt : internal < h.listCells.length) :
    readList
        (listAppend (itemsProperty h internal).1 (itemsProperty h internal).2 iaddr)
        internal
      = readList h internal := by
  unfold readList listAppend itemsProperty
  simp only []
  congr 1
  rw [List.getD_eq_getElem?_getD, List.getD_eq_getElem?_getD]
  rw [List.getElem?_set_ne (by simpa using Nat.ne_of_gt hlt)]
  rw [List.getElem?_append_left hlt]

end Alias

/-!
## Claim theorems
-/

/-- C1: the claim states that for a student already in the course's set,
`enroll_student` detects the repeat before the capacity check and returns
without raising even when the course is at capacity.  The code performs
the capacity check first: on the full capacity-1 course of spec
scenario 3 (reached through `create` and one successful enroll),
re-enrolling the same student raises `ValueError` "Курс уже заполнен."
and is not a silent no-op. -/
theorem course_reenroll_when_full_raises :
    EndEx.Course.create ⟨0⟩ ⟨"Последнее место"⟩ 1 = .ok Demo.course1 ∧
    (Demo.course1.enrollStudent Demo.studentA).2 = none ∧
    Demo.courseFull = (Demo.course1.enrollStudent Demo.studentA).1 ∧
    Demo.courseFull.students = [Demo.studentA] ∧
    Demo.courseFull.enrollStudent Demo.studentA =
      (Demo.courseFull, some (.valueError "Курс уже заполнен.")) :=
  ⟨rfl, by decide, rfl, by decide, by decide⟩

/-- C2 counterexample: on the capacity-1 course of spec scenario 3, the
successful `enroll_student` call that fills the last seat moves `version`
from 1 to 3 — two increments (one per emitted event), not one. -/
theorem last_seat_enroll_double_increment :
    (Demo.course1.enrollStudent Demo.studentA).2 = none ∧
    Demo.course1.version = 1 ∧
    (Demo.course1.enrollStudent Demo.studentA).1.version = 3 ∧
    ¬ (Demo.course1.enrollStudent Demo.studentA).1.version
        = Demo.course1.version + 1 := by
  decide

/-- C2 (amended): every successful `Order` and `Shipment` mutator call
increments `version` by exactly 1, and the creation paths leave a fresh
aggregate at `version = 1`; `Course`, however, increments `version` once
per emitted event, so a successful `enroll_student` that does not fill
the course increments by 1 while one that fills the last seat (emitting
`StudentEnrolled` and `EnrollmentClosed`) increments by 2; the idempotent
duplicate enroll leaves `version` unchanged. -/
theorem version_increment_per_mutation :
    (∀ (cid : Nat) (oid : AggEx.OrderId), (AggEx.Order.new cid oid).version = 1) ∧
    (∀ (fid : EndEx.CourseId) (nm : EndEx.CourseName) (cap : Int)
        (c : EndEx.Course), EndEx.Course.create fid nm cap = .ok c → c.version = 1) ∧
    (∀ (fid : AdvEx.ShipmentId) (dest : AdvEx.Address) (mw : AdvEx.Weight)
        (mv : AdvEx.Volume), (AdvEx.Shipment.create fid dest mw mv).version = 1) ∧
    (∀ (o : AggEx.Order) (p : AggEx.Product) (q : Int) (iid : AggEx.OrderItemId),
        (o.addItem p q iid).2 = none → (o.addItem p q iid).1.version = o.version + 1) ∧
    (∀ (o : AggEx.Order) (pid : AggEx.ProductId),
        (o.removeItem pid).2 = none → (o.removeItem pid).1.version = o.version + 1) ∧
    (∀ (o : AggEx.Order) (pid : AggEx.ProductId) (nq : Int),
        (o.updateItemQuantity pid nq).2 = none →
          (o.updateItemQuantity pid nq).1.version = o.version + 1) ∧
    (∀ o : AggEx.Order, (o.pay).2 = none → (o.pay).1.version = o.version + 1) ∧
    (∀ o : AggEx.Order, (o.ship).2 = none → (o.ship).1.version = o.version + 1) ∧
    (∀ o : AggEx.Order, (o.cancel).2 = none → (o.cancel).1.version = o.version + 1) ∧
    (∀ (s : AdvEx.Shipment) (oid : AdvEx.OrderId) (w : AdvEx.Weight)
        (v : AdvEx.Volume), (s.addParcel oid w v).2 = none →
          (s.addParcel oid w v).1.version = s.version + 1) ∧
    (∀ (s : AdvEx.Shipment) (t : Int), (s.dispatch t).2 = none →
        (s.dispatch t).1.version = s.version + 1) ∧
    (∀ (s : AdvEx.Shipment) (t : Int), (s.markAsDelivered t).2 = none →
        (s.markAsDelivered t).1.version = s.version + 1) ∧
    (∀ (c : EndEx.Course) (sid : EndEx.StudentId),
        (c.enrollStudent sid).2 = none →
          (sid ∈ c.students → (c.enrollStudent sid).1.version = c.version) ∧
          (sid ∉ c.students →
            (((c.students.length : Int) + 1 = c.capacity →
                (c.enrollStudent sid).1.version = c.version + 2) ∧
             ((c.students.length : Int) + 1 ≠ c.capacity →
                (c.enrollStudent sid).1.version = c.version + 1)))) :=
  ⟨fun _ _ => rfl, EndEx.create_version, fun _ _ _ _ => rfl,
   AggEx.addItem_ok_version, AggEx.removeItem_ok_version,
   AggEx.updateItemQuantity_ok_version, AggEx.pay_ok_version,
   AggEx.ship_ok_version, AggEx.cancel_ok_version,
   AdvEx.addParcel_ok_version, AdvEx.dispatch_ok_version,
   AdvEx.markAsDelivered_ok_version, EndEx.enrollStudent_version⟩

/-- C2 witness: the version facts instantiated on concrete aggregates —
a successful `Shipment.add_parcel` (1 → 2), a successful `Order.pay`
(11 → 12), a creating `Course.create` (version 1), and the idempotent
duplicate enroll on a capacity-2 course (version stays 2). -/
theorem version_increment_per_mutation_witness :
    (Demo.ship1.addParcel ⟨1⟩ ⟨25⟩ ⟨1/2⟩).1.version = Demo.ship1.version + 1 ∧
    (Demo.fullOrder.pay).1.version = Demo.fullOrder.version + 1 ∧
    Demo.course1.version = 1 ∧
    (Demo.course2.enrollStudent Demo.studentA).1.version = Demo.course2.version := by
  obtain ⟨-, h2, -, -, -, -, h7, -, -, h10, -, -, h13⟩ :=
    version_increment_per_mutation
  refine ⟨h10 _ _ _ _ ?_, h7 _ (by decide), h2 ⟨0⟩ ⟨"Последнее место"⟩ 1 _ rfl,
    (h13 _ _ (by decide)).1 (by decide)⟩
  rw [AdvEx.ship1_addParcel_small]

/-- C4: `pull_domain_events` returns the full ordered buffered event list
and empties the buffer in the same call, touching nothing else; a second
pull with no intervening mutation returns the empty list, so each event
is handed out at most once. -/
theorem pull_domain_events_drains_buffer :
    (∀ c : EndEx.Course,
      (c.pullDomainEvents).1 = c.events ∧
      (c.pullDomainEvents).2.events = [] ∧
      ((c.pullDomainEvents).2.pullDomainEvents).1 = [] ∧
      (c.pullDomainEvents).2.id = c.id ∧
      (c.pullDomainEvents).2.students = c.students ∧
      (c.pullDomainEvents).2.version = c.version) ∧
    (∀ s : AdvEx.Shipment,
      (s.pullDomainEvents).1 = s.events ∧
      (s.pullDomainEvents).2.events = [] ∧
      ((s.pullDomainEvents).2.pullDomainEvents).1 = [] ∧
      (s.pullDomainEvents).2.id = s.id ∧
      (s.pullDomainEvents).2.parcels = s.parcels ∧
      (s.pullDomainEvents).2.status = s.status ∧
      (s.pullDomainEvents).2.version = s.version) := by
  constructor
  · intro c
    simp [EndEx.Course.pullDomainEvents]
  · intro s
    simp [AdvEx.Shipment.pullDomainEvents]

/-- C7 counterexample: on a `Shipment()` built by the bare constructor,
`add_parcel` does fail fast, but with the business-rule `ValueError` of
the status-legality check — not with an error of the configuration
(`RuntimeError`) kind, which the claim requires to be distinct from the
business-rule kind. -/
theorem bare_shipment_mutator_raises_value_error :
    AdvEx.Shipment.bare.id = none ∧
    AdvEx.Shipment.bare.status = none ∧
    (AdvEx.Shipment.bare.addParcel ⟨1⟩ ⟨1⟩ ⟨1⟩).2.map PyErr.isValue = some true ∧
    (AdvEx.Shipment.bare.addParcel ⟨1⟩ ⟨1⟩ ⟨1⟩).2.map PyErr.isRuntime = some false := by
  decide

/-- C7 (amended): bypassing the factory leaves the observable sentinel
state (`id is None`, `status is None`, `version 0`), and every mutator
called on it fails fast leaving the object unchanged — but the error
raised is the business-rule `ValueError` produced by the status-legality
check (current status `None`), not a distinct configuration error; the
`RuntimeError` configuration checks in the source are unreachable from
this state. -/
theorem bare_shipment_sentinel_and_fail_fast :
    AdvEx.Shipment.bare.id = none ∧
    AdvEx.Shipment.bare.status = none ∧
    AdvEx.Shipment.bare.version = 0 ∧
    (∀ (oid : AdvEx.OrderId) (w : AdvEx.Weight) (v : AdvEx.Volume),
      AdvEx.Shipment.bare.addParcel oid w v =
        (AdvEx.Shipment.bare,
         some (.valueError "Нельзя добавлять посылки в отправление."))) ∧
    (∀ t : Int, AdvEx.Shipment.bare.dispatch t =
        (AdvEx.Shipment.bare,
         some (.valueError "Отправить можно только подготовленный груз."))) ∧
    (∀ t : Int, AdvEx.Shipment.bare.markAsDelivered t =
        (AdvEx.Shipment.bare,
         some (.valueError "Нельзя отметить доставленным груз в этом статусе."))) := by
  refine ⟨rfl, rfl, rfl, ?_, ?_, ?_⟩
  · intro oid w v
    simp [AdvEx.Shipment.addParcel, AdvEx.Shipment.bare]
  · intro t
    simp [AdvEx.Shipment.dispatch, AdvEx.Shipment.bare]
  · intro t
    simp [AdvEx.Shipment.markAsDelivered, AdvEx.Shipment.bare]

/-- C3: on every aggregate, a mutator call that raises leaves the
aggregate exactly as it was — `version`, `status`, child collections and
the event buffer included (state equality covers every field).  For
`Shipment` the statement carries the reachable-state hypothesis
`Shipment.WF` (id set unless the object is the bare sentinel, whose
status `None` makes every mutator fail before mutating): the source
re-checks `self.id is None` only after its mutation step, so the
unreachable state `status == PREPARING ∧ id == None` is the one state
excluded. -/
theorem failed_mutator_leaves_state_unchanged :
    (∀ (c : EndEx.Course) (sid : EndEx.StudentId),
        (c.enrollStudent sid).2.isSome → (c.enrollStudent sid).1 = c) ∧
    (∀ (o : AggEx.Order) (p : AggEx.Product) (q : Int) (iid : AggEx.OrderItemId),
        (o.addItem p q iid).2.isSome → (o.addItem p q iid).1 = o) ∧
    (∀ (o : AggEx.Order) (pid : AggEx.ProductId),
        (o.removeItem pid).2.isSome → (o.removeItem pid).1 = o) ∧
    (∀ (o : AggEx.Order) (pid : AggEx.ProductId) (nq : Int),
        (o.updateItemQuantity pid nq).2.isSome → (o.updateItemQuantity pid nq).1 = o) ∧
    (∀ o : AggEx.Order, (o.pay).2.isSome → (o.pay).1 = o) ∧
    (∀ o : AggEx.Order, (o.ship).2.isSome → (o.ship).1 = o) ∧
    (∀ o : AggEx.Order, (o.cancel).2.isSome → (o.cancel).1 = o) ∧
    (∀ (s : AdvEx.Shipment) (oid : AdvEx.OrderId) (w : AdvEx.Weight)
        (v : AdvEx.Volume), s.WF →
          (s.addParcel oid w v).2.isSome → (s.addParcel oid w v).1 = s) ∧
    (∀ (s : AdvEx.Shipment) (t : Int), s.WF →
        (s.dispatch t).2.isSome → (s.dispatch t).1 = s) ∧
    (∀ (s : AdvEx.Shipment) (t : Int), s.WF →
        (s.markAsDelivered t).2.isSome → (s.markAsDelivered t).1 = s) :=
  ⟨EndEx.enrollStudent_err_unchanged, AggEx.addItem_err_unchanged,
   AggEx.removeItem_err_unchanged, AggEx.updateItemQuantity_err_unchanged,
   AggEx.pay_err_unchanged, AggEx.ship_err_unchanged,
   AggEx.cancel_err_unchanged, AdvEx.addParcel_err_unchanged,
   AdvEx.dispatch_err_unchanged, AdvEx.markAsDelivered_err_unchanged⟩

/-- C3 witness: three failing mutator calls on concrete aggregates —
enrolling student B on the full course (raises "course full"), adding an
over-weight parcel to the loaded shipment, and adding an eleventh product
to the order at the item limit — each leaves the aggregate unchanged. -/
theorem failed_mutator_leaves_state_unchanged_witness :
    (Demo.courseFull.enrollStudent ⟨9⟩).1 = Demo.courseFull ∧
    (Demo.ship2.addParcel ⟨2⟩ ⟨90⟩ ⟨1/10⟩).1 = Demo.ship2 ∧
    (Demo.fullOrder.addItem ⟨⟨55⟩, "Новый товар", 10⟩ 1 ⟨99⟩).1 = Demo.fullOrder := by
  obtain ⟨h1, h2, -, -, -, -, -, h8, -, -⟩ :=
    failed_mutator_leaves_state_unchanged
  refine ⟨h1 _ _ (by decide), h8 _ _ _ _ (by decide) ?_, h2 _ _ _ _ (by decide)⟩
  norm_num [Demo.ship2, AdvEx.Shipment.addParcel, AdvEx.Shipment.addEvent,
    AdvEx.Shipment.currentWeight, AdvEx.Shipment.currentVolume]

/-- C5 counterexample: on the freshly created shipment of spec scenario 1
(`max_weight = 100`, `max_volume = 1.5`, no parcels), adding a first
parcel of weight exactly 100 raises and leaves the shipment unchanged,
although the resulting sum of parcel weights (0 + 100) would not exceed
`max_weight` — the empty-shipment placeholder `Weight(0.001)` used by
`current_weight` makes the capacity check reject it. -/
theorem first_parcel_at_max_weight_rejected :
    Demo.ship1.parcels = [] ∧
    Demo.ship1.max_weight = some ⟨100⟩ ∧
    Demo.ship1.max_volume = some ⟨3/2⟩ ∧
    (Demo.ship1.parcels.map (fun p => p.weight.value)).sum + 100 ≤ (100 : ℚ) ∧
    (Demo.ship1.addParcel ⟨1⟩ ⟨100⟩ ⟨1/2⟩).2.isSome = true ∧
    (Demo.ship1.addParcel ⟨1⟩ ⟨100⟩ ⟨1/2⟩).1 = Demo.ship1 := by
  refine ⟨rfl, rfl, rfl,
    by norm_num [Demo.ship1, AdvEx.Shipment.create, AdvEx.Shipment.addEvent],
    ?_, ?_⟩ <;>
    norm_num [Demo.ship1, AdvEx.Shipment.create, AdvEx.Shipment.addParcel,
      AdvEx.Shipment.addEvent, AdvEx.Shipment.currentWeight,
      AdvEx.Shipment.currentVolume]

/-- C5 (amended): for a PREPARING shipment with a factory-assigned id,
configured limits and no parcel for the given order id, `add_parcel`
succeeds exactly when `current_weight + weight ≤ max_weight` and
`current_volume + volume ≤ max_volume`, where `current_weight` /
`current_volume` are the parcel sums *or the 0.001 placeholder when the
shipment is still empty* (so a first parcel weighing exactly
`max_weight` is rejected); on success it appends the parcel, increments
`version` by exactly 1 and buffers one `ParcelAddedToShipment` event,
and on failure it leaves the shipment unchanged.  The concrete scenario
(25/0.5 succeeds with version 2, then 90 raises with version still 2)
is the witness below. -/
theorem add_parcel_capacity_rule (s : AdvEx.Shipment) (oid : AdvEx.OrderId)
    (w : AdvEx.Weight) (v : AdvEx.Volume) (sid0 : AdvEx.ShipmentId)
    (mw : AdvEx.Weight) (mv : AdvEx.Volume)
    (hst : s.status = some .PREPARING) (hid : s.id = some sid0)
    (hmw : s.max_weight = some mw) (hmv : s.max_volume = some mv)
    (hdup : ∀ p ∈ s.parcels, p.order_id ≠ oid) :
    ((s.addParcel oid w v).2 = none ↔
      (s.currentWeight.value + w.value ≤ mw.value ∧
       s.currentVolume.value + v.value ≤ mv.value)) ∧
    ((s.addParcel oid w v).2 = none →
      ((s.addParcel oid w v).1.parcels = s.parcels ++ [⟨oid, w, v⟩] ∧
       (s.addParcel oid w v).1.version = s.version + 1 ∧
       (s.addParcel oid w v).1.events =
         s.events ++ [.parcelAddedToShipment sid0.value oid w v])) ∧
    ((s.addParcel oid w v).2.isSome → (s.addParcel oid w v).1 = s) := by
  have hany : s.parcels.any (fun p => decide (p.order_id = oid)) = false := by
    simp only [List.any_eq_false, decide_eq_true_eq]
    exact hdup
  unfold AdvEx.Shipment.addParcel
  rw [hmw, hmv]
  simp only [hst, hid, hany, AdvEx.Shipment.addEvent]
  by_cases h1 : mw.value < s.currentWeight.value + w.value
  · simp [h1]
  · by_cases h2 : mv.value < s.currentVolume.value + v.value
    · simp [h1, h2]
    · simp [h1, h2]
      exact ⟨le_of_not_lt h1, le_of_not_lt h2⟩

/-- C5 witness — spec scenario 1 on concrete shipments: the 25 kg /
0.5 m³ parcel is accepted (parcel appended, version 1 → 2, one
`ParcelAddedToShipment` event buffered), and the 90 kg parcel is then
rejected leaving the loaded shipment (version 2) unchanged. -/
theorem add_parcel_capacity_rule_witness :
    (Demo.ship1.addParcel ⟨1⟩ ⟨25⟩ ⟨1/2⟩).2 = none ∧
    (Demo.ship1.addParcel ⟨1⟩ ⟨25⟩ ⟨1/2⟩).1.parcels =
      Demo.ship1.parcels ++ [⟨⟨1⟩, ⟨25⟩, ⟨1/2⟩⟩] ∧
    (Demo.ship1.addParcel ⟨1⟩ ⟨25⟩ ⟨1/2⟩).1.version = Demo.ship1.version + 1 ∧
    (Demo.ship1.addParcel ⟨1⟩ ⟨25⟩ ⟨1/2⟩).1.events = Demo.ship1.events ++
      [.parcelAddedToShipment 0 ⟨1⟩ ⟨25⟩ ⟨1/2⟩] ∧
    (Demo.ship2.addParcel ⟨2⟩ ⟨90⟩ ⟨1/10⟩).1 = Demo.ship2 ∧
    Demo.ship2.version = 2 := by
  obtain ⟨hiff, hsucc, -⟩ :=
    add_parcel_capacity_rule Demo.ship1 ⟨1⟩ ⟨25⟩ ⟨1/2⟩ ⟨0⟩ ⟨100⟩ ⟨3/2⟩
      rfl rfl rfl rfl (by decide)
  have h0 : (Demo.ship1.addParcel ⟨1⟩ ⟨25⟩ ⟨1/2⟩).2 = none := by
    refine hiff.mpr ?_
    norm_num [Demo.ship1, AdvEx.Shipment.create, AdvEx.Shipment.addEvent,
      AdvEx.Shipment.currentWeight, AdvEx.Shipment.currentVolume]
  obtain ⟨hp, hv, he⟩ := hsucc h0
  obtain ⟨hiff2, -, herr2⟩ :=
    add_parcel_capacity_rule Demo.ship2 ⟨2⟩ ⟨90⟩ ⟨1/10⟩ ⟨0⟩ ⟨100⟩ ⟨3/2⟩
      rfl rfl rfl rfl (by decide)
  have hc : ¬ (Demo.ship2.currentWeight.value + (⟨90⟩ : AdvEx.Weight).value ≤
        (⟨100⟩ : AdvEx.Weight).value ∧
      Demo.ship2.currentVolume.value + (⟨1/10⟩ : AdvEx.Volume).value ≤
        (⟨3/2⟩ : AdvEx.Volume).value) := by
    norm_num [Demo.ship2, AdvEx.Shipment.currentWeight]
  have hne : (Demo.ship2.addParcel ⟨2⟩ ⟨90⟩ ⟨1/10⟩).2 ≠ none :=
    fun h => hc (hiff2.mp h)
  exact ⟨h0, hp, hv, he, herr2 (Option.isSome_iff_ne_none.mpr hne), rfl⟩

/-- C6 counterexample: `Order.items` returns `list(self._items)` — a
fresh list object (address 1, not the internal address 0) that shares
its element references.  Calling `change_quantity(7)` on the item
reached through the returned copy succeeds, and a subsequently fetched
read of the aggregate's internal collection shows the changed quantity:
same length, different contents — the claim's "never affects the
aggregate's internal state" is false for element mutation. -/
theorem shallow_items_copy_leaks_element_mutation :
    (Alias.itemsProperty Demo.heap0 0).2 = 1 ∧
    Demo.heap1.listCells.getD 1 [] = [0] ∧
    (Alias.changeQuantityAt Demo.heap1 0 7).2 = none ∧
    (Alias.readList Demo.heap2 0).length = (Alias.readList Demo.heap0 0).length ∧
    Alias.readList Demo.heap0 0 ≠ Alias.readList Demo.heap2 0 := by
  decide

/-- C6 (amended): the accessor's copy protects the container but not the
elements — the returned list is a fresh object (its address differs from
the internal one), and mutating the returned collection itself
(appending to it) leaves a subsequent read of the aggregate's internal
collection unchanged in length and contents; but the copy is shallow, so
mutating a mutable element reached through it does change the
aggregate's internal state (the counterexample above). -/
theorem items_copy_container_level_safe (h : Alias.Heap)
    (internal iaddr : Nat) (hlt : internal < h.listCells.length) :
    (Alias.itemsProperty h internal).2 ≠ internal ∧
    Alias.readList
        (Alias.listAppend (Alias.itemsProperty h internal).1
          (Alias.itemsProperty h internal).2 iaddr) internal
      = Alias.readList h internal :=
  ⟨Alias.itemsProperty_fresh_address h internal hlt,
   Alias.listAppend_on_copy_safe h internal iaddr hlt⟩

/-- C6 witness: the container-level safety applied to the concrete heap —
appending a stray reference to the returned copy does not change what
the aggregate's internal list reads back. -/
theorem items_copy_container_level_safe_witness :
    (Alias.itemsProperty Demo.heap0 0).2 ≠ 0 ∧
    Alias.readList
        (Alias.listAppend (Alias.itemsProperty Demo.heap0 0).1
          (Alias.itemsProperty Demo.heap0 0).2 5) 0
      = Alias.readList Demo.heap0 0 :=
  items_copy_container_level_safe Demo.heap0 0 5 (by decide)

/-- C8: equality is by identity field only for all three aggregate
types — two instances with the same id compare equal under Python's `==`
protocol whatever their other state, instances with different ids
compare unequal, and comparison against an unrelated type (or another
aggregate type) yields `False` rather than an error through the
`NotImplemented` fallback; the `Course` and `Shipment` hashes are
functions of the identity field alone (equal exactly on equal ids).
The claim's "hash identically" leg, however, is broken in the code for
`Order`: `OrderId` is a plain non-frozen dataclass, hence unhashable
(`__hash__ is None`), so `Order.__hash__`'s `hash(self.id)` always
raises `TypeError` — proved in general and evaluated at the failing
input, the same-id divergent-state orders `order1` and `fullOrder`. -/
theorem aggregate_equality_by_identity :
    (∀ c1 c2 : EndEx.Course,
        PyEq.pyEq (.course c1) (.course c2) = true ↔ c1.id = c2.id) ∧
    (∀ o1 o2 : AggEx.Order,
        PyEq.pyEq (.order o1) (.order o2) = true ↔ o1.id = o2.id) ∧
    (∀ s1 s2 : AdvEx.Shipment,
        PyEq.pyEq (.shipment s1) (.shipment s2) = true ↔ s1.id = s2.id) ∧
    (∀ c1 c2 : EndEx.Course, c1.hashValue = c2.hashValue ↔ c1.id = c2.id) ∧
    (∀ s1 s2 : AdvEx.Shipment, s1.hashValue = s2.hashValue ↔ s1.id = s2.id) ∧
    (∀ o : AggEx.Order,
        o.hashValue = .error (.typeError "unhashable type: OrderId")) ∧
    (∀ (c : EndEx.Course) (t : String),
        PyEq.pyEq (.course c) (.str t) = false ∧
        PyEq.pyEq (.str t) (.course c) = false) ∧
    (∀ (o : AggEx.Order) (t : String),
        PyEq.pyEq (.order o) (.str t) = false ∧
        PyEq.pyEq (.str t) (.order o) = false) ∧
    (∀ (s : AdvEx.Shipment) (t : String),
        PyEq.pyEq (.shipment s) (.str t) = false ∧
        PyEq.pyEq (.str t) (.shipment s) = false) ∧
    (∀ (c : EndEx.Course) (o : AggEx.Order),
        PyEq.pyEq (.course c) (.order o) = false) ∧
    Demo.order1.id = Demo.fullOrder.id ∧
    Demo.order1.items ≠ Demo.fullOrder.items ∧
    PyEq.pyEq (.order Demo.order1) (.order Demo.fullOrder) = true ∧
    Demo.order1.hashValue = .error (.typeError "unhashable type: OrderId") := by
  refine ⟨?_, ?_, ?_, ?_, ?_, ?_, ?_, ?_, ?_, ?_, rfl, by decide, by decide, rfl⟩
  · intro c1 c2
    simp [PyEq.pyEq, PyEq.dunderEq, PyEq.courseEqMethod]
  · intro o1 o2
    simp [PyEq.pyEq, PyEq.dunderEq, PyEq.orderEqMethod]
  · intro s1 s2
    simp [PyEq.pyEq, PyEq.dunderEq, PyEq.shipmentEqMethod]
  · intro c1 c2
    exact EndEx.courseId_value_inj c1.id c2.id
  · intro s1 s2
    exact AdvEx.shipment_hashValue_inj s1 s2
  · intro o
    rfl
  · intro c t
    exact ⟨rfl, rfl⟩
  · intro o t
    exact ⟨rfl, rfl⟩
  · intro s t
    exact ⟨rfl, rfl⟩
  · intro c o
    rfl

/-- C9: `Money` is a value object — equality under Python's `==` protocol
is exactly field-wise equality (so two separately constructed
`Money(100, "RUB")` compare equal) and the frozen-dataclass hash is a
function of the fields, so equal values hash identically; a `Money`
compared with an unrelated type yields `False`, not an error; and `+` on
operands with different currencies raises the currency-mismatch
`ValueError` instead of coercing, in particular
`Money(100,"RUB") + Money(50,"USD")`. -/
theorem money_value_equality_and_currency_guard :
    ValObj.Money.mk? 100 "RUB" = .ok ⟨100, "RUB"⟩ ∧
    ValObj.Money.mk? 50 "USD" = .ok ⟨50, "USD"⟩ ∧
    (∀ m1 m2 : ValObj.Money,
        PyEq.pyEq (.money m1) (.money m2) = true ↔ m1 = m2) ∧
    (∀ m1 m2 : ValObj.Money, m1 = m2 → m1.hashValue = m2.hashValue) ∧
    (∀ (m : ValObj.Money) (t : String),
        PyEq.pyEq (.money m) (.str t) = false ∧
        PyEq.pyEq (.str t) (.money m) = false) ∧
    (∀ m1 m2 : ValObj.Money, m1.currency ≠ m2.currency →
        m1.add m2 =
          .error (.valueError "Нельзя складывать деньги в разных валютах.")) ∧
    ValObj.Money.add ⟨100, "RUB"⟩ ⟨50, "USD"⟩ =
      .error (.valueError "Нельзя складывать деньги в разных валютах.") := by
  refine ⟨?_, ?_, ?_, ?_, ?_, ?_, ?_⟩
  · have h : ValObj.validCurrency "RUB" = true := by decide
    norm_num [ValObj.Money.mk?, h]
  · have h : ValObj.validCurrency "USD" = true := by decide
    norm_num [ValObj.Money.mk?, h]
  · intro m1 m2
    simp [PyEq.pyEq, PyEq.dunderEq, PyEq.moneyEqMethod]
  · intro m1 m2 h
    rw [h]
  · intro m t
    exact ⟨rfl, rfl⟩
  · intro m1 m2 h
    simp [ValObj.Money.add, h]
  · simp [ValObj.Money.add]

/-- C9 witness: the generic facts instantiated at the concrete moneys of
spec scenario 5 — the two `Money(100, "RUB")` values compare equal and
hash identically, `Money(100,"RUB")` is unequal to `Money(50,"USD")` and
to a plain string, and their sum raises the currency mismatch. -/
theorem money_value_equality_witness :
    PyEq.pyEq (.money ⟨100, "RUB"⟩) (.money ⟨100, "RUB"⟩) = true ∧
    (⟨100, "RUB"⟩ : ValObj.Money).hashValue =
      (⟨100, "RUB"⟩ : ValObj.Money).hashValue ∧
    PyEq.pyEq (.money ⟨100, "RUB"⟩) (.money ⟨50, "USD"⟩) = false ∧
    PyEq.pyEq (.money ⟨100, "RUB"⟩) (.str "не деньги") = false ∧
    ValObj.Money.add ⟨100, "RUB"⟩ ⟨50, "USD"⟩ =
      .error (.valueError "Нельзя складывать деньги в разных валютах.") := by
  obtain ⟨-, -, heq, hhash, hstr, hadd, -⟩ :=
    money_value_equality_and_currency_guard
  refine ⟨(heq _ _).mpr rfl, hhash _ _ rfl, by decide,
    (hstr ⟨100, "RUB"⟩ "не деньги").1, hadd _ _ (by decide)⟩

/-- C10 counterexample: `fullOrder` is PENDING, already holds an item for
product 0 with quantity 1 (so the merged quantity 2 is within the limit),
but it is at `MAX_ITEMS_PER_ORDER`; `add_item(product 0, 1)` raises the
max-items error — which fires before the duplicate-product scan — and
leaves the order unchanged, where the claim requires the quantity merge
to succeed with a version increment. -/
theorem add_item_at_item_limit_rejects_existing_product :
    Demo.fullOrder.status = .PENDING ∧
    Demo.fullOrder.items.length = AggEx.MAX_ITEMS_PER_ORDER ∧
    Demo.fullOrder.findItem Demo.prod0.id = some Demo.item0 ∧
    Demo.item0.quantity + 1 ≤ 100 ∧
    (Demo.fullOrder.addItem Demo.prod0 1 ⟨99⟩).2.isSome = true ∧
    (Demo.fullOrder.addItem Demo.prod0 1 ⟨99⟩).1 = Demo.fullOrder := by
  decide

/-- C10 (amended): for a PENDING order already containing an item for
product P with quantity q₀ (a validated, positive quantity), and holding
fewer than `MAX_ITEMS_PER_ORDER` items, `add_item(P, q)` with
`1 ≤ q ≤ 100` does not append a second item for P and does not raise a
duplicate-key error: if `q₀ + q ≤ 100` it sets the existing item's
quantity to `q₀ + q` (leaving the item count unchanged) and increments
`version` by exactly 1; if `q₀ + q > 100` it raises and leaves the order
unchanged.  At exactly `MAX_ITEMS_PER_ORDER` items the max-items check
fires first even for an existing product (the counterexample above). -/
theorem add_item_merges_existing_product (o : AggEx.Order) (p : AggEx.Product)
    (q : Int) (iid : AggEx.OrderItemId) (it0 : AggEx.OrderItem)
    (hst : o.status = .PENDING)
    (hlen : o.items.length < AggEx.MAX_ITEMS_PER_ORDER)
    (hfind : o.findItem p.id = some it0)
    (hq1 : 1 ≤ q) (hq2 : q ≤ 100) (hq0 : 1 ≤ it0.quantity) :
    (it0.quantity + q ≤ 100 →
      ((o.addItem p q iid).2 = none ∧
       (o.addItem p q iid).1.items =
         AggEx.setQuantityFirstMatch p.id (it0.quantity + q) o.items ∧
       (o.addItem p q iid).1.items.length = o.items.length ∧
       (o.addItem p q iid).1.version = o.version + 1)) ∧
    (100 < it0.quantity + q →
      ((o.addItem p q iid).2.isSome ∧ (o.addItem p q iid).1 = o)) := by
  have hfind' : o.items.find? (fun it => decide (it.product_id = p.id)) = some it0 := hfind
  unfold AggEx.Order.addItem
  rw [if_neg (by simp [hst]), if_neg (Nat.not_le.mpr hlen),
    if_neg (by simp only [AggEx.MAX_QUANTITY_PER_ITEM]; omega),
    AggEx.updateFirstMatch_spec p.id p.name q o.items it0 hfind' (by omega)]
  constructor
  · intro hle
    rw [if_neg (by simp only [AggEx.MAX_QUANTITY_PER_ITEM]; omega)]
    exact ⟨rfl, rfl, AggEx.setQuantityFirstMatch_length _ _ _, rfl⟩
  · intro hgt
    rw [if_pos (by simp only [AggEx.MAX_QUANTITY_PER_ITEM]; omega)]
    exact ⟨rfl, rfl⟩

/-- C10 witness: on a one-item PENDING order holding product 0 with
quantity 1, `add_item(product 0, 2)` merges into quantity 3 without a
second item and bumps the version from 2 to 3. -/
theorem add_item_merges_existing_product_witness :
    (Demo.order1.addItem Demo.prod0 2 ⟨99⟩).2 = none ∧
    (Demo.order1.addItem Demo.prod0 2 ⟨99⟩).1.items =
      AggEx.setQuantityFirstMatch Demo.prod0.id 3 Demo.order1.items ∧
    (Demo.order1.addItem Demo.prod0 2 ⟨99⟩).1.items.length =
      Demo.order1.items.length ∧
    (Demo.order1.addItem Demo.prod0 2 ⟨99⟩).1.version = Demo.order1.version + 1 := by
  obtain ⟨hok, -⟩ :=
    add_item_merges_existing_product Demo.order1 Demo.prod0 2 ⟨99⟩ Demo.item0
      rfl (by decide) (by decide) (by decide) (by decide) (by decide)
  exact hok (by decide)
